import Mathlib

/-!
Verification development for the InboxPilot repository
(`src/inboxpilot/classifier.py`, `src/inboxpilot/ai.py`,
`src/inboxpilot/services.py`, `src/inboxpilot/storage/sqlite_store.py`).

Python strings are modelled as `List Char`; `str.lower` as a character map;
`datetime` values as their ISO strings (so `isoformat`/`fromisoformat` are the
identity); SQLite tables as in-memory lists of row structures with explicit
AUTOINCREMENT counters.  Service methods become pure functions threading the
store state; a raised `ValueError("... not found")` is modelled as a `none`
result (the store passed back unchanged, as the raise precedes every write in
the source).  Each AI-calling service function additionally emits an event
trace mirroring the statement order in its body, so ordering facts
(request logged before response, both before the fallback decision) can be
stated.
-/

namespace InboxPilot

/-- Python strings, modelled as lists of characters. -/
abbrev Str := List Char

/-- Model of Python `str.lower()` (ASCII case folding via `Char.toLower`). -/
def lowerStr (s : Str) : Str := s.map Char.toLower

/-- Python regex word characters (`\w`): alphanumerics and underscore. -/
def isWordChar (c : Char) : Bool := c.isAlphanum || c == '_'

/-- Splitter underlying `re.split(r"\W+", text)`: cut the string at every
non-word character (runs of separators produce empty pieces, which the
caller filters out, matching the Python list comprehension). -/
def splitNonWordAux : Str → Str → List Str
  | [], acc => [acc.reverse]
  | c :: rest, acc =>
    if isWordChar c then splitNonWordAux rest (c :: acc)
    else acc.reverse :: splitNonWordAux rest []

/-- All word-character tokens of a string, in order, empty tokens discarded —
the value of `[token for token in re.split(r"\W+", text) if token]`. -/
def tokenizeWords (s : Str) : List Str :=
  (splitNonWordAux s []).filter (fun t => t ≠ [])

/-- Python's `needle in haystack` substring test. -/
def isSubstring (needle haystack : Str) : Bool := decide (needle <:+: haystack)

/-- `inboxpilot.models.Message` (timestamp kept as its ISO string). -/
structure Message where
  provider_message_id : Str
  subject : Str
  sender : Str
  recipients : Str
  timestamp : Str
  snippet : Str
  body : Str
deriving DecidableEq

/-- `inboxpilot.models.Category`. -/
structure Category where
  name : Str
  description : Option Str
deriving DecidableEq

/-- `classifier._extract_keywords`: tokenize the lower-cased
`f"{category.name} {category.description or ''}"`. -/
def extract_keywords (c : Category) : List Str :=
  tokenizeWords (lowerStr (c.name ++ ' ' :: c.description.getD []))

/-- The classifier's search text `f"{message.subject} {message.body}".lower()`. -/
def classifierSearchText (m : Message) : Str :=
  lowerStr (m.subject ++ ' ' :: m.body)

/-- `RuleBasedClassifier.suggest`: keep, in input order, every candidate
category one of whose keywords occurs as a substring of the search text. -/
def RuleBasedClassifier.suggest (m : Message) (categories : List Category) :
    List Category :=
  categories.filter
    (fun c => (extract_keywords c).any
      (fun keyword => isSubstring keyword (classifierSearchText m)))

/-! ## AI gateway (`ai.py`) -/

/-- An AI provider's `generate_text`, modelled as a pure function from prompt
and purpose to response text and latency. -/
abbrev AiProvider := Str → Str → Str × Nat

/-- `MockAiProvider.generate_text` response text:
`f"[mock:{purpose}] {prompt[:240]}"`. -/
def MockAiProvider.text (prompt purpose : Str) : Str :=
  "[mock:".data ++ purpose ++ "] ".data ++ prompt.take 240

/-- The mock provider; its wall-clock latency measurement is modelled by an
arbitrary parameter (its value never influences control flow). -/
def MockAiProvider.provider (latency : Nat) : AiProvider :=
  fun prompt purpose => (MockAiProvider.text prompt purpose, latency)

/-- `ai.estimate_tokens`: `max(1, len(text) // 4)`. -/
def estimate_tokens (text : Str) : Nat := max 1 (text.length / 4)

/-! ## Triage scoring (`TriageService.rank_messages` body, per message) -/

/-- A stored message row (`sqlite_store.StoredMessage` plus its owning user,
as kept in the `messages` table). -/
structure MessageRow where
  id : Nat
  user_id : Option Nat
  provider_message_id : Str
  subject : Str
  sender : Str
  recipients : Str
  timestamp : Str
  snippet : Str
  body : Str
deriving DecidableEq

/-- One entry of `TriageService.rank_messages`' result. -/
structure RankedEntry where
  id : Nat
  subject : Str
  sender : Str
  priority : Str
  score : Nat
deriving DecidableEq

/-- The body of `TriageService.rank_messages`' loop for one message:
search text, additive score (+2 high, +1 medium), priority label. -/
def rankOne (high_keywords medium_keywords : List Str) (m : MessageRow) :
    RankedEntry :=
  let text := lowerStr (m.subject ++ ' ' :: m.body)
  let score0 := 0
  let score1 :=
    if high_keywords.any (fun keyword => isSubstring keyword text)
    then score0 + 2 else score0
  let score :=
    if medium_keywords.any (fun keyword => isSubstring keyword text)
    then score1 + 1 else score1
  let priority :=
    if score ≥ 2 then "high".data else if score == 1 then "medium".data
    else "low".data
  { id := m.id, subject := m.subject, sender := m.sender,
    priority := priority, score := score }

/-! ## Storage model (`storage/sqlite_store.py`) -/

/-- A `categories` table row. -/
structure CategoryRow where
  id : Nat
  user_id : Option Nat
  name : Str
  description : Option Str
deriving DecidableEq

/-- A `tasks` table row. -/
structure TaskRow where
  id : Nat
  user_id : Option Nat
  parent_type : Str
  parent_id : Nat
  description : Str
  status : Str
  due_date : Option Str
deriving DecidableEq

/-- A `notes` table row. -/
structure NoteRow where
  id : Nat
  user_id : Option Nat
  parent_type : Str
  parent_id : Nat
  content : Str
deriving DecidableEq

/-- An `ai_requests` table row. -/
structure AiRequestRow where
  id : Nat
  user_id : Option Nat
  provider : Str
  model : Str
  prompt : Str
  purpose : Str
  timestamp : Str
deriving DecidableEq

/-- An `ai_responses` table row. -/
structure AiResponseRow where
  id : Nat
  request_id : Nat
  response_text : Str
  latency_ms : Nat
  token_estimate : Nat
deriving DecidableEq

/-- A `meetings` table row. -/
structure MeetingRow where
  id : Nat
  user_id : Option Nat
  provider_event_id : Str
  title : Str
  participants : Str
  start_time : Str
  end_time : Str
  transcript_ref : Option Str
deriving DecidableEq

/-- A `meeting_transcripts` table row. -/
structure TranscriptRow where
  meeting_id : Nat
  content : Str
deriving DecidableEq

/-- The SQLite database state: each table as a list of rows in rowid
(insertion) order, plus the AUTOINCREMENT counter of each table. -/
structure Store where
  messages : List MessageRow := []
  categories : List CategoryRow := []
  tasks : List TaskRow := []
  notes : List NoteRow := []
  aiRequests : List AiRequestRow := []
  aiResponses : List AiResponseRow := []
  meetings : List MeetingRow := []
  transcripts : List TranscriptRow := []
  nextMessageId : Nat := 1
  nextCategoryId : Nat := 1
  nextTaskId : Nat := 1
  nextNoteId : Nat := 1
  nextAiRequestId : Nat := 1
  nextAiResponseId : Nat := 1
deriving DecidableEq

/-- Strict lexicographic order on strings by character code — SQLite's
default BINARY collation, used to model `ORDER BY` on TEXT columns. -/
def strLt : Str → Str → Bool
  | [], [] => false
  | [], _ :: _ => true
  | _ :: _, [] => false
  | a :: as, b :: bs =>
    if a.toNat < b.toNat then true
    else if b.toNat < a.toNat then false
    else strLt as bs

/-- Non-strict version of `strLt`. -/
def strLe (a b : Str) : Bool := !strLt b a

/-- Stable insertion into a sorted list (a concrete determinization of
SQLite's unspecified order among equal sort keys). -/
def insertSorted (le : α → α → Bool) (x : α) : List α → List α
  | [] => [x]
  | y :: ys => if le x y then x :: y :: ys else y :: insertSorted le x ys

/-- Stable insertion sort by `le`, modelling `ORDER BY`. -/
def sortBy (le : α → α → Bool) (l : List α) : List α :=
  l.foldr (insertSorted le) []

/-- `SqliteStore.get_message`: `SELECT ... WHERE id = ? [AND user_id = ?]`. -/
def Store.get_message (st : Store) (message_id : Nat) (user_id : Option Nat) :
    Option MessageRow :=
  match user_id with
  | none => st.messages.find? (fun r => r.id == message_id)
  | some u =>
    st.messages.find? (fun r => r.id == message_id && r.user_id == some u)

/-- `SqliteStore.list_categories`: user-scoped rows, `ORDER BY name`. -/
def Store.list_categories (st : Store) (user_id : Option Nat) :
    List CategoryRow :=
  let rows := match user_id with
    | none => st.categories
    | some u => st.categories.filter (fun r => r.user_id == some u)
  sortBy (fun a b => strLe a.name b.name) rows

/-- `SqliteStore.list_messages`: user-scoped rows,
`ORDER BY timestamp DESC LIMIT ?`. -/
def Store.list_messages (st : Store) (limit : Nat) (user_id : Option Nat) :
    List MessageRow :=
  let rows := match user_id with
    | none => st.messages
    | some u => st.messages.filter (fun r => r.user_id == some u)
  (sortBy (fun a b => strLe b.timestamp a.timestamp) rows).take limit

/-- SQLite `LIKE '%q%'` on a TEXT column (case-insensitive for ASCII). -/
def likeContains (q text : Str) : Bool :=
  isSubstring (lowerStr q) (lowerStr text)

/-- `SqliteStore.search_messages`: rows whose subject or body `LIKE %q%`,
`ORDER BY timestamp DESC LIMIT ?`. -/
def Store.search_messages (st : Store) (query : Str) (limit : Nat)
    (user_id : Option Nat) : List MessageRow :=
  let rows := match user_id with
    | none => st.messages
    | some u => st.messages.filter (fun r => r.user_id == some u)
  let rows := rows.filter
    (fun r => likeContains query r.subject || likeContains query r.body)
  (sortBy (fun a b => strLe b.timestamp a.timestamp) rows).take limit

/-- Modelled from the spec: `SqliteStore.search_meetings` is called by
`ChatService.answer` but its definition is missing from `src/`; per the
spec's non-goal "search is substring matching" it is modelled as the
meeting analogue of `search_messages` (substring match on title or
participants, most recent first, limited). -/
def Store.search_meetings (st : Store) (query : Str) (limit : Nat)
    (user_id : Option Nat) : List MeetingRow :=
  let rows := match user_id with
    | none => st.meetings
    | some u => st.meetings.filter (fun r => r.user_id == some u)
  let rows := rows.filter
    (fun r => likeContains query r.title || likeContains query r.participants)
  (sortBy (fun a b => strLe b.start_time a.start_time) rows).take limit

/-- `SqliteStore.add_task` (the `Task` dataclass itself is missing from
`src/`; per the spec's data model a task is created with the given parent
reference and description, status "open", no due date). -/
def Store.add_task (st : Store) (user_id : Option Nat) (parent_type : Str)
    (parent_id : Nat) (description : Str) : Store × Nat :=
  let row : TaskRow :=
    { id := st.nextTaskId, user_id := user_id, parent_type := parent_type,
      parent_id := parent_id, description := description,
      status := "open".data, due_date := none }
  ({ st with tasks := st.tasks ++ [row], nextTaskId := st.nextTaskId + 1 },
    st.nextTaskId)

/-- `SqliteStore.add_note`. -/
def Store.add_note (st : Store) (user_id : Option Nat) (parent_type : Str)
    (parent_id : Nat) (content : Str) : Store × Nat :=
  let row : NoteRow :=
    { id := st.nextNoteId, user_id := user_id, parent_type := parent_type,
      parent_id := parent_id, content := content }
  ({ st with notes := st.notes ++ [row], nextNoteId := st.nextNoteId + 1 },
    st.nextNoteId)

/-- `SqliteStore.log_ai_request`: insert and return the new row id. -/
def Store.log_ai_request (st : Store) (user_id : Option Nat) (provider : Str)
    (model : Str) (prompt : Str) (purpose : Str) (timestamp : Str) :
    Store × Nat :=
  let row : AiRequestRow :=
    { id := st.nextAiRequestId, user_id := user_id, provider := provider,
      model := model, prompt := prompt, purpose := purpose,
      timestamp := timestamp }
  let st' := { st with aiRequests := st.aiRequests ++ [row],
                       nextAiRequestId := st.nextAiRequestId + 1 }
  (st', st.nextAiRequestId)

/-- `SqliteStore.log_ai_response`: insert and return the new row id. -/
def Store.log_ai_response (st : Store) (request_id : Nat)
    (response_text : Str) (latency_ms : Nat) (token_estimate : Nat) :
    Store × Nat :=
  let row : AiResponseRow :=
    { id := st.nextAiResponseId, request_id := request_id,
      response_text := response_text, latency_ms := latency_ms,
      token_estimate := token_estimate }
  let st' := { st with aiResponses := st.aiResponses ++ [row],
                       nextAiResponseId := st.nextAiResponseId + 1 }
  (st', st.nextAiResponseId)

/-- `SqliteStore.get_meeting_transcript`. -/
def Store.get_meeting_transcript (st : Store) (meeting_id : Nat) :
    Option TranscriptRow :=
  st.transcripts.find? (fun r => r.meeting_id == meeting_id)

/-- The loop of `SqliteStore.save_messages`.  One cursor handles the whole
batch, so `cursor.lastrowid` carries over between iterations: it is the
rowid of the last *successful* insert on this connection and `0` when the
connection has inserted nothing yet.  An ignored `INSERT OR IGNORE` still
burns an AUTOINCREMENT id but keeps `lastrowid` stale, so the
`if cursor.lastrowid:` test takes the fallback
`SELECT id ... WHERE provider_message_id = ?` (first row in rowid order)
only when `lastrowid` is still `0`. -/
def Store.save_messages_loop (user_id : Option Nat) :
    Store → Nat → List Message → Store × List Nat
  | st, _, [] => (st, [])
  | st, lastrowid, m :: rest =>
    if st.messages.any
        (fun r => r.provider_message_id == m.provider_message_id) then
      -- UNIQUE(provider_message_id) conflict: insert ignored
      let st' := { st with nextMessageId := st.nextMessageId + 1 }
      if lastrowid ≠ 0 then
        let (stf, ids) := Store.save_messages_loop user_id st' lastrowid rest
        (stf, lastrowid :: ids)
      else
        match st.messages.find?
            (fun r => r.provider_message_id == m.provider_message_id) with
        | some row =>
          let (stf, ids) := Store.save_messages_loop user_id st' lastrowid rest
          (stf, row.id :: ids)
        | none =>
          let (stf, ids) := Store.save_messages_loop user_id st' lastrowid rest
          (stf, ids)
    else
      let newId := st.nextMessageId
      let row : MessageRow :=
        { id := newId, user_id := user_id,
          provider_message_id := m.provider_message_id,
          subject := m.subject, sender := m.sender,
          recipients := m.recipients, timestamp := m.timestamp,
          snippet := m.snippet, body := m.body }
      let st' := { st with messages := st.messages ++ [row],
                           nextMessageId := newId + 1 }
      let (stf, ids) := Store.save_messages_loop user_id st' newId rest
      (stf, newId :: ids)

/-- `SqliteStore.save_messages`: fresh connection, so `lastrowid` starts 0. -/
def Store.save_messages (st : Store) (user_id : Option Nat)
    (messages : List Message) : Store × List Nat :=
  Store.save_messages_loop user_id st 0 messages

/-- `SqliteStore.create_category`: `INSERT OR IGNORE` with
`UNIQUE(name, user_id)`; on conflict (fresh connection, `lastrowid == 0`)
fall back to `SELECT id FROM categories WHERE name = ?` — by name alone,
unscoped by user, returning the first matching row in rowid order. -/
def Store.create_category (st : Store) (user_id : Option Nat) (c : Category) :
    Store × Nat :=
  let conflict := match user_id with
    | none => false  -- SQLite UNIQUE treats NULLs as distinct
    | some u => st.categories.any
        (fun r => r.name == c.name && r.user_id == some u)
  if conflict then
    let st' := { st with nextCategoryId := st.nextCategoryId + 1 }
    match st.categories.find? (fun r => r.name == c.name) with
    | some row => (st', row.id)
    | none => (st', 0)
  else
    let row : CategoryRow :=
      { id := st.nextCategoryId, user_id := user_id, name := c.name,
        description := c.description }
    let st' := { st with categories := st.categories ++ [row],
                         nextCategoryId := st.nextCategoryId + 1 }
    (st', st.nextCategoryId)

/-! ## Shared text helpers used by the service layer -/

/-- Python `str.splitlines()` (modelled over the `\n`, `\r\n` and `\r` line
boundaries): every boundary terminates the current line; a trailing boundary
does not open a final empty line. -/
def splitlinesAux : Str → Str → List Str
  | [], acc => if acc.isEmpty then [] else [acc.reverse]
  | '\r' :: '\n' :: rest, acc => acc.reverse :: splitlinesAux rest []
  | '\n' :: rest, acc => acc.reverse :: splitlinesAux rest []
  | '\r' :: rest, acc => acc.reverse :: splitlinesAux rest []
  | c :: rest, acc => splitlinesAux rest (c :: acc)

/-- Python `str.splitlines()`. -/
def splitlines (s : Str) : List Str := splitlinesAux s []

/-- Python `str.strip()`: drop whitespace from both ends. -/
def stripStr (s : Str) : Str :=
  ((s.dropWhile Char.isWhitespace).reverse.dropWhile Char.isWhitespace).reverse

/-- The per-line cleanup `line.strip().lstrip("-").strip()` shared by task
extraction and (before lower-casing) category-suggestion validation. -/
def cleanLine (line : Str) : Str :=
  stripStr ((stripStr line).dropWhile (fun c => c == '-'))

/-- Python `sep.join(pieces)`. -/
def joinSep (sep : Str) : List Str → Str
  | [] => []
  | [x] => x
  | x :: y :: rest => x ++ sep ++ joinSep sep (y :: rest)

/-! ## Service layer (`services.py`)

Each AI-calling method becomes a function from the store to
`Option result × Store × List Event`; `none` models the
`ValueError("... not found")` raise (which in the source precedes every
write, so the store comes back unchanged with an empty trace).  The event
trace lists, in the statement order of the method body, the provider
invocation, the audit writes, and the derived-record writes. -/

/-- Observable steps of one service-method execution, in source order. -/
inductive Event where
  | aiCall (prompt purpose : Str)
  | logRequest (id : Nat)
  | logResponse (id request_id : Nat)
  | addTask (id : Nat)
  | addNote (id : Nat)
  | returnAi
  | fallback
deriving DecidableEq

/-- The dataclass fields shared by the AI-calling services
(`ai_provider`, `provider_name`, `model_name`, `user_id`), plus `now`, the
value `datetime.utcnow().isoformat()` takes during the call. -/
structure ServiceCtx where
  ai : AiProvider
  provider_name : Str
  model_name : Str
  user_id : Nat
  now : Str

/-- `ChatService._log_ai` (the same block is inlined verbatim in
`CategoryService`, `MessageInsightsService`, `TaskService` and
`MeetingSummaryService`): persist the `AiRequest`, then the `AiResponse`
carrying the request id just returned. -/
def logAi (ctx : ServiceCtx) (st : Store) (prompt purpose response_text : Str)
    (latency_ms : Nat) : Store × Nat × Nat :=
  let (st1, request_id) := st.log_ai_request (some ctx.user_id)
    ctx.provider_name ctx.model_name prompt purpose ctx.now
  let (st2, response_id) := st1.log_ai_response request_id response_text
    latency_ms (estimate_tokens response_text)
  (st2, request_id, response_id)

/-- `ChatService._format_message`. -/
def formatMessage (m : MessageRow) : Str :=
  "ID: ".data ++ (Nat.repr m.id).data ++ "\n".data
  ++ "From: ".data ++ m.sender ++ "\n".data
  ++ "Subject: ".data ++ m.subject ++ "\n".data
  ++ "Snippet: ".data ++ m.snippet ++ "\n".data

/-- `ChatService._format_meeting`. -/
def formatMeeting (m : MeetingRow) : Str :=
  "MEETING ID: ".data ++ (Nat.repr m.id).data ++ "\n".data
  ++ "Title: ".data ++ m.title ++ "\n".data
  ++ "Participants: ".data ++ m.participants ++ "\n".data
  ++ "Start: ".data ++ m.start_time ++ "\n".data

/-- `ChatService.answer`. -/
def ChatService.answer (ctx : ServiceCtx) (st : Store) (query : Str)
    (limit : Nat) : Option Str × Store × List Event :=
  let messages := st.search_messages query limit (some ctx.user_id)
  let meetings := st.search_meetings query limit (some ctx.user_id)
  let message_context := joinSep "\n\n".data (messages.map formatMessage)
  let meeting_context := joinSep "\n\n".data (meetings.map formatMeeting)
  let context := joinSep "\n\n".data
    (([message_context, meeting_context]).filter (fun s => s ≠ []))
  let prompt :=
    "Answer the user question using the message and meeting context.\n\n".data
    ++ "Question: ".data ++ query ++ "\n\n".data
    ++ "Context:\n".data ++ context ++ "\n".data
  let (response_text, latency_ms) := ctx.ai prompt "answer".data
  let (st2, rid, respid) := logAi ctx st prompt "answer".data response_text
    latency_ms
  (some response_text, st2,
    [Event.aiCall prompt "answer".data, Event.logRequest rid,
     Event.logResponse respid rid])

/-- `ChatService.draft_reply`. -/
def ChatService.draft_reply (ctx : ServiceCtx) (st : Store) (message_id : Nat)
    (instructions : Str) : Option Str × Store × List Event :=
  match st.get_message message_id (some ctx.user_id) with
  | none => (none, st, [])
  | some message =>
    let prompt :=
      "Draft a helpful reply. Do not send the email.\n\n".data
      ++ "Email from: ".data ++ message.sender ++ "\n".data
      ++ "Subject: ".data ++ message.subject ++ "\n".data
      ++ "Body: ".data ++ message.body ++ "\n\n".data
      ++ "User instructions: ".data ++ instructions ++ "\n".data
    let (response_text, latency_ms) := ctx.ai prompt "draft".data
    let (st2, rid, respid) := logAi ctx st prompt "draft".data response_text
      latency_ms
    (some response_text, st2,
      [Event.aiCall prompt "draft".data, Event.logRequest rid,
       Event.logResponse respid rid])

/-- The in-memory `Category` built from a stored row
(`Category(name=item.name, description=item.description)`). -/
def categoryOf (row : CategoryRow) : Category :=
  { name := row.name, description := row.description }

/-- The reconstruction of a `Message` from its stored row performed by
`suggest_categories_ai` before the rule-based fallback
(`datetime.fromisoformat` of the stored ISO string is the identity here). -/
def Message.ofRow (r : MessageRow) : Message :=
  { provider_message_id := r.provider_message_id, subject := r.subject,
    sender := r.sender, recipients := r.recipients,
    timestamp := r.timestamp, snippet := r.snippet, body := r.body }

/-- The category-suggestion prompt of `CategoryService.suggest_categories_ai`:
instructions, the `- name` line per category, subject and body. -/
def suggestionPrompt (categories : List Category) (subject body : Str) :
    Str :=
  let category_list :=
    joinSep "\n".data (categories.map (fun c => "- ".data ++ c.name))
  "Select the most relevant categories for the email. Respond with one category name per line from the provided list.\n\n".data
  ++ "Available categories:\n".data ++ category_list ++ "\n\n".data
  ++ "Email subject: ".data ++ subject ++ "\n".data
  ++ "Email body: ".data ++ body ++ "\n".data

/-- Lookup in the `normalized` dict
`{category.name.lower(): category}` — built in list order, so a later
category with the same lower-cased name overwrites an earlier one. -/
def normalizedLookup (categories : List Category) (key : Str) :
    Option Category :=
  categories.reverse.find? (fun c => lowerStr c.name == key)

/-- The response-validation loop of `suggest_categories_ai`: clean each
response line (`strip`, `lstrip("-")`, `strip`, `lower`) and keep those
that hit the `normalized` dict. -/
def parse_suggestions (categories : List Category) (response_text : Str) :
    List Category :=
  (splitlines response_text).filterMap
    (fun line => normalizedLookup categories (lowerStr (cleanLine line)))

/-- `CategoryService.suggest_categories_ai`. -/
def CategoryService.suggest_categories_ai (ctx : ServiceCtx) (st : Store)
    (message_id : Nat) : Option (List Category) × Store × List Event :=
  match st.get_message message_id (some ctx.user_id) with
  | none => (none, st, [])
  | some message =>
    let stored_categories := st.list_categories (some ctx.user_id)
    let categories := stored_categories.map categoryOf
    if categories.isEmpty then (some [], st, [])
    else
      let prompt := suggestionPrompt categories message.subject message.body
      let (response_text, latency_ms) :=
        ctx.ai prompt "category_suggestion".data
      let (st2, rid, respid) := logAi ctx st prompt
        "category_suggestion".data response_text latency_ms
      let suggestions := parse_suggestions categories response_text
      let events :=
        [Event.aiCall prompt "category_suggestion".data,
         Event.logRequest rid, Event.logResponse respid rid]
      if suggestions.isEmpty then
        (some (RuleBasedClassifier.suggest (Message.ofRow message) categories),
          st2, events ++ [Event.fallback])
      else
        (some suggestions, st2, events ++ [Event.returnAi])

/-- `MessageInsightsService.summarize_message`. -/
def MessageInsightsService.summarize_message (ctx : ServiceCtx) (st : Store)
    (message_id : Nat) : Option Nat × Store × List Event :=
  match st.get_message message_id (some ctx.user_id) with
  | none => (none, st, [])
  | some message =>
    let prompt :=
      "Summarize the email with key points and any requested actions.\n\n".data
      ++ "From: ".data ++ message.sender ++ "\n".data
      ++ "Subject: ".data ++ message.subject ++ "\n".data
      ++ "Body: ".data ++ message.body ++ "\n".data
    let (response_text, latency_ms) := ctx.ai prompt "message_summary".data
    let (st2, rid, respid) := logAi ctx st prompt "message_summary".data
      response_text latency_ms
    let (st3, note_id) := st2.add_note (some ctx.user_id) "message".data
      message_id response_text
    (some note_id, st3,
      [Event.aiCall prompt "message_summary".data, Event.logRequest rid,
       Event.logResponse respid rid, Event.addNote note_id])

/-- `MessageInsightsService.suggest_follow_up`. -/
def MessageInsightsService.suggest_follow_up (ctx : ServiceCtx) (st : Store)
    (message_id : Nat) : Option Str × Store × List Event :=
  match st.get_message message_id (some ctx.user_id) with
  | none => (none, st, [])
  | some message =>
    let prompt :=
      "Suggest a follow-up action for the email. Keep it brief.\n\n".data
      ++ "From: ".data ++ message.sender ++ "\n".data
      ++ "Subject: ".data ++ message.subject ++ "\n".data
      ++ "Body: ".data ++ message.body ++ "\n".data
    let (response_text, latency_ms) := ctx.ai prompt "follow_up".data
    let (st2, rid, respid) := logAi ctx st prompt "follow_up".data
      response_text latency_ms
    (some response_text, st2,
      [Event.aiCall prompt "follow_up".data, Event.logRequest rid,
       Event.logResponse respid rid])

/-- The per-line loop shared by `extract_tasks_from_message` and
`extract_tasks_from_meeting`: clean each response line and persist one task
per non-empty cleaned line via `TaskService.add_task`. -/
def TaskService.extract_loop (user_id : Nat) (parent_type : Str)
    (parent_id : Nat) : Store → List Str → Store × List Nat × List Event
  | st, [] => (st, [], [])
  | st, line :: rest =>
    let cleaned := cleanLine line
    if cleaned.isEmpty then
      TaskService.extract_loop user_id parent_type parent_id st rest
    else
      let (st1, task_id) := st.add_task (some user_id) parent_type parent_id
        cleaned
      let (st2, ids, evs) :=
        TaskService.extract_loop user_id parent_type parent_id st1 rest
      (st2, task_id :: ids, Event.addTask task_id :: evs)

/-- The task-extraction prompt of `extract_tasks_from_message`. -/
def extractTasksMessagePrompt (message : MessageRow) : Str :=
  "Extract action items from the email. Respond with one task per line.\n\n".data
  ++ "Subject: ".data ++ message.subject ++ "\n".data
  ++ "From: ".data ++ message.sender ++ "\n".data
  ++ "Body: ".data ++ message.body ++ "\n".data

/-- The task-extraction prompt of `extract_tasks_from_meeting`. -/
def extractTasksMeetingPrompt (transcript : TranscriptRow) : Str :=
  "Extract action items from the meeting transcript. Respond with one task per line.\n\n".data
  ++ "Transcript:\n".data ++ transcript.content ++ "\n".data

/-- `TaskService.extract_tasks_from_message`. -/
def TaskService.extract_tasks_from_message (ctx : ServiceCtx) (st : Store)
    (message_id : Nat) : Option (List Nat) × Store × List Event :=
  match st.get_message message_id (some ctx.user_id) with
  | none => (none, st, [])
  | some message =>
    let prompt := extractTasksMessagePrompt message
    let (response_text, latency_ms) := ctx.ai prompt "extract_tasks".data
    let (st2, rid, respid) := logAi ctx st prompt "extract_tasks".data
      response_text latency_ms
    let (st3, task_ids, task_events) := TaskService.extract_loop ctx.user_id
      "message".data message_id st2 (splitlines response_text)
    (some task_ids, st3,
      [Event.aiCall prompt "extract_tasks".data, Event.logRequest rid,
       Event.logResponse respid rid] ++ task_events)

/-- `TaskService.extract_tasks_from_meeting` (the transcript lookup is not
user-scoped in the source). -/
def TaskService.extract_tasks_from_meeting (ctx : ServiceCtx) (st : Store)
    (meeting_id : Nat) : Option (List Nat) × Store × List Event :=
  match st.get_meeting_transcript meeting_id with
  | none => (none, st, [])
  | some transcript =>
    let prompt := extractTasksMeetingPrompt transcript
    let (response_text, latency_ms) := ctx.ai prompt "extract_tasks".data
    let (st2, rid, respid) := logAi ctx st prompt "extract_tasks".data
      response_text latency_ms
    let (st3, task_ids, task_events) := TaskService.extract_loop ctx.user_id
      "meeting".data meeting_id st2 (splitlines response_text)
    (some task_ids, st3,
      [Event.aiCall prompt "extract_tasks".data, Event.logRequest rid,
       Event.logResponse respid rid] ++ task_events)

/-- `MeetingSummaryService.summarize_meeting`. -/
def MeetingSummaryService.summarize_meeting (ctx : ServiceCtx) (st : Store)
    (meeting_id : Nat) : Option Nat × Store × List Event :=
  match st.get_meeting_transcript meeting_id with
  | none => (none, st, [])
  | some transcript =>
    let prompt :=
      "Summarize the meeting transcript with key decisions and next steps.\n\n".data
      ++ "Transcript:\n".data ++ transcript.content ++ "\n".data
    let (response_text, latency_ms) := ctx.ai prompt "meeting_summary".data
    let (st2, rid, respid) := logAi ctx st prompt "meeting_summary".data
      response_text latency_ms
    let (st3, note_id) := st2.add_note (some ctx.user_id) "meeting".data
      meeting_id response_text
    (some note_id, st3,
      [Event.aiCall prompt "meeting_summary".data, Event.logRequest rid,
       Event.logResponse respid rid, Event.addNote note_id])

/-- `TriageService.rank_messages`: list the user's most recent `limit`
messages and emit one ranked entry per message, in that storage order. -/
def TriageService.rank_messages (high_keywords medium_keywords : List Str)
    (user_id : Nat) (st : Store) (limit : Nat) : List RankedEntry :=
  (st.list_messages limit (some user_id)).map
    (rankOne high_keywords medium_keywords)

/-! ## Characterization helpers used only in theorem statements -/

/-- The cleaned non-blank lines of an AI response, as described by the
spec's task-extraction contract: split on line breaks, clean each line,
discard the empties. -/
def cleanedTaskLines (response_text : Str) : List Str :=
  ((splitlines response_text).map cleanLine).filter (fun t => t ≠ [])

/-- The task rows that persisting one task per description, starting at a
given AUTOINCREMENT id, appends to the `tasks` table. -/
def mkTaskRows (startId : Nat) (user_id : Option Nat) (parent_type : Str)
    (parent_id : Nat) : List Str → List TaskRow
  | [] => []
  | d :: rest =>
    { id := startId, user_id := user_id, parent_type := parent_type,
      parent_id := parent_id, description := d, status := "open".data,
      due_date := none } :: mkTaskRows (startId + 1) user_id parent_type
        parent_id rest

/-- Audit pairing between a pre-state and a post-state: exactly one new
`AiRequest` row and one new `AiResponse` row, the response referencing the
request's id. -/
def auditPaired (st st' : Store) : Prop :=
  ∃ req resp, st'.aiRequests = st.aiRequests ++ [req]
    ∧ st'.aiResponses = st.aiResponses ++ [resp]
    ∧ resp.request_id = req.id

/-- Audit ordering within one operation's event trace: the provider call,
then exactly one request log, then exactly one response log referencing the
same request id, with no further audit writes among the remaining events. -/
def auditTrace (tr : List Event) : Prop :=
  ∃ prompt purpose rid respid rest,
    tr = Event.aiCall prompt purpose :: Event.logRequest rid ::
      Event.logResponse respid rid :: rest
    ∧ ∀ e ∈ rest, (∀ n, e ≠ Event.logRequest n)
        ∧ ∀ n m, e ≠ Event.logResponse n m

/-! ## Concrete witness data -/

/-- A stored message of user 1 whose text matches no category keyword. -/
def msgRowW : MessageRow :=
  { id := 1
    user_id := some 1
    provider_message_id := "m1".data
    subject := "hello".data
    sender := "s@example.com".data
    recipients := "r@example.com".data
    timestamp := "2024-01-01T00:00:00".data
    snippet := "hi".data
    body := "nothing relevant".data }

/-- User 1's category "Work". -/
def catRowW : CategoryRow :=
  { id := 1
    user_id := some 1
    name := "Work".data
    description := none }

/-- A store holding `msgRowW`, `catRowW` and one meeting transcript. -/
def stW : Store :=
  { messages := [msgRowW]
    categories := [catRowW]
    transcripts := [{ meeting_id := 7, content := "- Do the thing".data }]
    nextMessageId := 2
    nextCategoryId := 2 }

/-- A service context configured with the deterministic mock provider. -/
def ctxW : ServiceCtx :=
  { ai := MockAiProvider.provider 0
    provider_name := "mock".data
    model_name := "mock".data
    user_id := 1
    now := "2024-01-02T00:00:00".data }

/-- A category whose name contains a newline, so no cleaned response line
can ever equal it, and whose description matches the witness message. -/
def catRowX : CategoryRow :=
  { id := 1
    user_id := some 1
    name := ('a' :: '\n' :: 'b' :: [])
    description := some "zebra".data }

/-- A stored message of user 1 mentioning the word "zebra". -/
def msgRowX : MessageRow :=
  { id := 1
    user_id := some 1
    provider_message_id := "mx".data
    subject := "Ping".data
    sender := "s@example.com".data
    recipients := "r@example.com".data
    timestamp := "2024-01-01T00:00:00".data
    snippet := "sn".data
    body := "bring the zebra".data }

/-- A store holding `msgRowX` and `catRowX`. -/
def stX : Store :=
  { messages := [msgRowX]
    categories := [catRowX]
    nextMessageId := 2
    nextCategoryId := 2 }

/-- A store holding only `msgRowW` — a user with zero categories. -/
def stC8 : Store :=
  { messages := [msgRowW]
    nextMessageId := 2 }

end InboxPilot

namespace InboxPilot

/-! ## Theorems for claim C2 -/

/-- C2: `RuleBasedClassifier.suggest` returns exactly the sublist of
candidates, in input order, whose keyword set (tokens of the lower-cased
`name + " " + description-or-empty`, split on non-word runs, empties
discarded) contains a token occurring as a substring of the lower-cased
`subject + " " + body`; the empty candidate list yields `[]`, and a category
with no matching keyword is never included. -/
theorem claim_C2_rule_classifier_filter (m : Message) (cats : List Category) :
    (∀ c, c ∈ RuleBasedClassifier.suggest m cats ↔
        c ∈ cats ∧ ∃ k ∈ extract_keywords c, k <:+: classifierSearchText m)
    ∧ (RuleBasedClassifier.suggest m cats).Sublist cats
    ∧ RuleBasedClassifier.suggest m ([] : List Category) = [] := by
  refine ⟨fun c => ?_, List.filter_sublist _, rfl⟩
  simp [RuleBasedClassifier.suggest, List.mem_filter, isSubstring,
    List.any_eq_true]

/-! ## Theorems for claims C4 and C5 -/

/-- Bridge between the Bool-valued `any`-of-substring test and its
propositional statement. -/
theorem any_isSubstring_iff (ks : List Str) (t : Str) :
    (ks.any fun k => isSubstring k t) = true ↔ ∃ k ∈ ks, k <:+: t := by
  simp [isSubstring, List.any_eq_true]

/-- C4: each triage entry's score is 2 exactly when some high keyword is a
substring of the lower-cased subject-plus-body search text, plus 1 for the
medium list, so scores stay in `{0,1,2,3}` and empty keyword lists give 0;
the priority label is "high" iff score ≥ 2, "medium" iff score = 1 and
"low" iff score = 0; and `rank_messages` applies exactly this scoring to
every listed message. -/
theorem claim_C4_triage_scoring (high medium : List Str) (m : MessageRow) :
    (rankOne high medium m).score =
        (if ∃ k ∈ high, k <:+: lowerStr (m.subject ++ ' ' :: m.body)
          then 2 else 0)
        + (if ∃ k ∈ medium, k <:+: lowerStr (m.subject ++ ' ' :: m.body)
          then 1 else 0)
    ∧ (rankOne high medium m).score ≤ 3
    ∧ (rankOne ([] : List Str) ([] : List Str) m).score = 0
    ∧ ((rankOne high medium m).priority = "high".data
        ↔ 2 ≤ (rankOne high medium m).score)
    ∧ ((rankOne high medium m).priority = "medium".data
        ↔ (rankOne high medium m).score = 1)
    ∧ ((rankOne high medium m).priority = "low".data
        ↔ (rankOne high medium m).score = 0)
    ∧ ∀ (user_id : Nat) (st : Store) (limit : Nat),
        TriageService.rank_messages high medium user_id st limit
          = (st.list_messages limit (some user_id)).map
              (rankOne high medium) := by
  have base : ∀ h m' : List Str,
      (rankOne h m' m).score =
        (if h.any (fun k =>
            isSubstring k (lowerStr (m.subject ++ ' ' :: m.body)))
          then 2 else 0)
        + (if m'.any (fun k =>
            isSubstring k (lowerStr (m.subject ++ ' ' :: m.body)))
          then 1 else 0) := by
    intro h m'
    simp only [rankOne]
    by_cases hH : h.any (fun k =>
        isSubstring k (lowerStr (m.subject ++ ' ' :: m.body))) = true <;>
      by_cases hM : m'.any (fun k =>
          isSubstring k (lowerStr (m.subject ++ ' ' :: m.body))) = true <;>
      simp [hH, hM]
  have hscore : (rankOne high medium m).score =
      (if ∃ k ∈ high, k <:+: lowerStr (m.subject ++ ' ' :: m.body)
        then 2 else 0)
      + (if ∃ k ∈ medium, k <:+: lowerStr (m.subject ++ ' ' :: m.body)
        then 1 else 0) := by
    rw [base]
    congr 1 <;> simp only [any_isSubstring_iff]
  have hprio : (rankOne high medium m).priority =
      (if 2 ≤ (rankOne high medium m).score then "high".data
        else if (rankOne high medium m).score == 1 then "medium".data
        else "low".data) := rfl
  have priLabel : ∀ s : Nat,
      ((if 2 ≤ s then "high".data else if s == 1 then "medium".data
        else "low".data) = "high".data ↔ 2 ≤ s)
      ∧ ((if 2 ≤ s then "high".data else if s == 1 then "medium".data
        else "low".data) = "medium".data ↔ s = 1)
      ∧ ((if 2 ≤ s then "high".data else if s == 1 then "medium".data
        else "low".data) = "low".data ↔ s = 0) := by
    intro s
    have e1 : ("high".data : Str) ≠ "medium".data := by decide
    have e2 : ("high".data : Str) ≠ "low".data := by decide
    have e3 : ("medium".data : Str) ≠ "high".data := by decide
    have e4 : ("medium".data : Str) ≠ "low".data := by decide
    have e5 : ("low".data : Str) ≠ "high".data := by decide
    have e6 : ("low".data : Str) ≠ "medium".data := by decide
    by_cases h1 : 2 ≤ s
    · have hs1 : ¬ s = 1 := by omega
      have hs0 : ¬ s = 0 := by omega
      simp [h1, e1, e2, hs1, hs0]
    · by_cases h2 : s = 1
      · simp [h1, h2, e3, e4]
      · have hs0 : s = 0 := by omega
        simp [h1, h2, e5, e6, hs0, beq_iff_eq]
  refine ⟨hscore, ?_, ?_, ?_, ?_, ?_, fun user_id st limit => rfl⟩
  · rw [hscore]; split_ifs <;> omega
  · simp [base]
  · rw [hprio]; exact (priLabel _).1
  · rw [hprio]; exact (priLabel _).2.1
  · rw [hprio]; exact (priLabel _).2.2

/-- C5: `rank_messages` emits exactly one entry per listed message, in the
storage listing's order — the output id sequence equals the listing's id
sequence — and never re-orders entries by score. -/
theorem claim_C5_triage_storage_order (high medium : List Str)
    (user_id : Nat) (st : Store) (limit : Nat) :
    (TriageService.rank_messages high medium user_id st limit).map
        RankedEntry.id
      = (st.list_messages limit (some user_id)).map MessageRow.id
    ∧ (TriageService.rank_messages high medium user_id st limit).length
      = (st.list_messages limit (some user_id)).length := by
  constructor
  · simp only [TriageService.rank_messages, List.map_map]
    exact List.map_congr_left fun a _ => rfl
  · simp [TriageService.rank_messages]

/-! ## Theorem for claim C6 -/

/-- C6: re-ingesting a message with an already-stored
`provider_message_id` creates no additional row and returns the same
internal id: a second `save_messages` call with the same message leaves the
`messages` table unchanged and returns the same (singleton) id list as the
first call. -/
theorem claim_C6_idempotent_ingestion (st : Store) (user_id : Option Nat)
    (m : Message) :
    ((st.save_messages user_id [m]).1.save_messages user_id [m]).1.messages
      = (st.save_messages user_id [m]).1.messages
    ∧ ((st.save_messages user_id [m]).1.save_messages user_id [m]).2
      = (st.save_messages user_id [m]).2
    ∧ (st.save_messages user_id [m]).2.length = 1 := by
  by_cases hc : st.messages.any
      (fun r => r.provider_message_id == m.provider_message_id)
  · -- the provider id is already stored: both calls take the ignored path
    obtain ⟨row, hrow⟩ : ∃ row, st.messages.find?
        (fun r => r.provider_message_id == m.provider_message_id)
          = some row := by
      cases hf : st.messages.find?
          (fun r => r.provider_message_id == m.provider_message_id) with
      | some row => exact ⟨row, rfl⟩
      | none =>
        exfalso
        rw [List.find?_eq_none] at hf
        rw [List.any_eq_true] at hc
        obtain ⟨x, hx, hpx⟩ := hc
        exact hf x hx hpx
    simp [Store.save_messages, Store.save_messages_loop, hc, hrow]
  · -- fresh provider id: first call inserts, second call takes the
    -- ignored path and finds the row just inserted
    have hfind : st.messages.find?
        (fun r => r.provider_message_id == m.provider_message_id) = none := by
      rw [List.find?_eq_none]
      intro x hx hpx
      exact hc (List.any_eq_true.mpr ⟨x, hx, hpx⟩)
    simp only [Store.save_messages, Store.save_messages_loop, hc,
      Bool.false_eq_true, if_false]
    simp only [Store.save_messages_loop, List.any_append, hc,
      List.any_cons, List.any_nil, Bool.false_or, Bool.or_false,
      beq_self_eq_true, List.find?_append, hfind, Option.none_orElse,
      List.find?_cons]
    simp [Store.save_messages_loop]

/-! ## Theorem for claim C10 -/

/-- C10: natural-key upserts are deduplicated without user scoping.  User 1
creates category "Work" (id 1), user 2 creates its own "Work" (id 2); when
user 2 re-creates "Work", the fallback lookup selects by name alone and
returns id 1 — user 1's category — and adds no row.  Likewise, after user 1
ingests a message, user 2 ingesting the same provider id gets back user 1's
internal id 1 and no row of its own. -/
theorem claim_C10_cross_user_dedup :
    (Store.create_category ({} : Store) (some 1) ⟨"Work".data, none⟩).2 = 1
    ∧ (Store.create_category
        (Store.create_category ({} : Store) (some 1) ⟨"Work".data, none⟩).1
        (some 2) ⟨"Work".data, none⟩).2 = 2
    ∧ (Store.create_category (Store.create_category
        (Store.create_category ({} : Store) (some 1) ⟨"Work".data, none⟩).1
        (some 2) ⟨"Work".data, none⟩).1 (some 2) ⟨"Work".data, none⟩).2 = 1
    ∧ (Store.create_category (Store.create_category
        (Store.create_category ({} : Store) (some 1) ⟨"Work".data, none⟩).1
        (some 2) ⟨"Work".data, none⟩).1 (some 2)
          ⟨"Work".data, none⟩).1.categories.map
        (fun r => (r.id, r.user_id)) = [(1, some 1), (2, some 2)]
    ∧ (Store.save_messages ({} : Store) (some 1)
        [⟨"shared".data, "Hi".data, "a@x".data, "b@x".data,
          "2024-01-01T00:00:00".data, "sn".data, "hello".data⟩]).2 = [1]
    ∧ (Store.save_messages
        (Store.save_messages ({} : Store) (some 1)
          [⟨"shared".data, "Hi".data, "a@x".data, "b@x".data,
            "2024-01-01T00:00:00".data, "sn".data, "hello".data⟩]).1
        (some 2)
        [⟨"shared".data, "Hi".data, "a@x".data, "b@x".data,
          "2024-01-01T00:00:00".data, "sn".data, "hello".data⟩]).2 = [1]
    ∧ (Store.save_messages
        (Store.save_messages ({} : Store) (some 1)
          [⟨"shared".data, "Hi".data, "a@x".data, "b@x".data,
            "2024-01-01T00:00:00".data, "sn".data, "hello".data⟩]).1
        (some 2)
        [⟨"shared".data, "Hi".data, "a@x".data, "b@x".data,
          "2024-01-01T00:00:00".data, "sn".data, "hello".data⟩]).1.messages.map
        (fun r => (r.id, r.user_id)) = [(1, some 1)] := by
  decide

/-! ## Task-extraction loop characterization (shared helper) -/

/-- The extraction loop appends exactly one task row per non-blank cleaned
line, in line order, with consecutive AUTOINCREMENT ids, returns those ids,
touches no audit table, and emits only `addTask` events. -/
theorem extract_loop_spec (uid : Nat) (pt : Str) (pid : Nat) :
    ∀ (st : Store) (lines : List Str),
      (TaskService.extract_loop uid pt pid st lines).1.tasks
        = st.tasks ++ mkTaskRows st.nextTaskId (some uid) pt pid
            ((lines.map cleanLine).filter (fun t => t ≠ []))
      ∧ (TaskService.extract_loop uid pt pid st lines).2.1
        = (List.range ((lines.map cleanLine).filter
            (fun t => t ≠ [])).length).map (fun i => st.nextTaskId + i)
      ∧ (TaskService.extract_loop uid pt pid st lines).1.aiRequests
        = st.aiRequests
      ∧ (TaskService.extract_loop uid pt pid st lines).1.aiResponses
        = st.aiResponses
      ∧ ∀ e ∈ (TaskService.extract_loop uid pt pid st lines).2.2,
          ∃ n, e = Event.addTask n := by
  intro st lines
  induction lines generalizing st with
  | nil => simp [TaskService.extract_loop, mkTaskRows]
  | cons line rest ih =>
    by_cases hcl : (cleanLine line).isEmpty
    · have hnil : cleanLine line = [] := List.isEmpty_iff.mp hcl
      simpa [TaskService.extract_loop, hcl, hnil] using ih st
    · have hne : ¬ cleanLine line = [] := by
        intro h; rw [h] at hcl; exact hcl rfl
      obtain ⟨ih1, ih2, ih3, ih4, ih5⟩ :=
        ih { st with
             tasks := st.tasks ++ [{ id := st.nextTaskId,
                                     user_id := some uid,
                                     parent_type := pt, parent_id := pid,
                                     description := cleanLine line,
                                     status := "open".data,
                                     due_date := none }],
             nextTaskId := st.nextTaskId + 1 }
      refine ⟨?_, ?_, ?_, ?_, ?_⟩
      · simp only [TaskService.extract_loop, hcl, Bool.false_eq_true,
          if_false, Store.add_task]
        rw [ih1]
        simp [mkTaskRows, hne]
      · simp only [TaskService.extract_loop, hcl, Bool.false_eq_true,
          if_false, Store.add_task]
        rw [ih2]
        simp only [List.map_cons]
        rw [show List.filter (fun t => decide (t ≠ []))
            (cleanLine line :: List.map cleanLine rest)
            = cleanLine line :: List.filter (fun t => decide (t ≠ []))
              (List.map cleanLine rest) by simp [hne]]
        rw [List.length_cons, List.range_succ_eq_map]
        simp only [List.map_cons, List.map_map, Nat.add_zero]
        congr 1
        exact List.map_congr_left fun a _ => by
          simp [Function.comp]; omega
      · simp only [TaskService.extract_loop, hcl, Bool.false_eq_true,
          if_false, Store.add_task]
        exact ih3
      · simp only [TaskService.extract_loop, hcl, Bool.false_eq_true,
          if_false, Store.add_task]
        exact ih4
      · simp only [TaskService.extract_loop, hcl, Bool.false_eq_true,
          if_false, Store.add_task]
        intro e he
        rcases List.mem_cons.mp he with h | h
        · exact ⟨st.nextTaskId, h⟩
        · exact ih5 e h

/-! ## Theorems for claim C7 -/

/-- C7: task extraction from a message or meeting transcript creates
exactly one task per line of the AI response that remains non-empty after
stripping surrounding whitespace and leading dashes, in line order, with
the cleaned line as description and the parent fixed to the source; blank
lines create nothing; and the response
`"- Send report\n- Call client\n\n"` cleans to exactly
`["Send report", "Call client"]`. -/
theorem claim_C7_task_extraction_parsing (ctx : ServiceCtx) (st : Store)
    (message_id meeting_id : Nat) :
    (∀ message, st.get_message message_id (some ctx.user_id) = some message →
      (TaskService.extract_tasks_from_message ctx st message_id).2.1.tasks
        = st.tasks ++ mkTaskRows st.nextTaskId (some ctx.user_id)
            "message".data message_id
            (cleanedTaskLines
              (ctx.ai (extractTasksMessagePrompt message)
                "extract_tasks".data).1)
      ∧ (TaskService.extract_tasks_from_message ctx st message_id).1
        = some ((List.range (cleanedTaskLines
            (ctx.ai (extractTasksMessagePrompt message)
              "extract_tasks".data).1).length).map
            (fun i => st.nextTaskId + i)))
    ∧ (∀ transcript, st.get_meeting_transcript meeting_id = some transcript →
      (TaskService.extract_tasks_from_meeting ctx st meeting_id).2.1.tasks
        = st.tasks ++ mkTaskRows st.nextTaskId (some ctx.user_id)
            "meeting".data meeting_id
            (cleanedTaskLines
              (ctx.ai (extractTasksMeetingPrompt transcript)
                "extract_tasks".data).1)
      ∧ (TaskService.extract_tasks_from_meeting ctx st meeting_id).1
        = some ((List.range (cleanedTaskLines
            (ctx.ai (extractTasksMeetingPrompt transcript)
              "extract_tasks".data).1).length).map
            (fun i => st.nextTaskId + i)))
    ∧ cleanedTaskLines ("- Send report\n- Call client\n\n".data)
        = ["Send report".data, "Call client".data] := by
  refine ⟨?_, ?_, by decide⟩
  · intro message h
    simp only [TaskService.extract_tasks_from_message, h]
    constructor
    · rw [(extract_loop_spec _ _ _ _ _).1]
      simp [logAi, Store.log_ai_request, Store.log_ai_response,
        cleanedTaskLines]
    · rw [(extract_loop_spec _ _ _ _ _).2.1]
      simp [logAi, Store.log_ai_request, Store.log_ai_response,
        cleanedTaskLines]
  · intro transcript h
    simp only [TaskService.extract_tasks_from_meeting, h]
    constructor
    · rw [(extract_loop_spec _ _ _ _ _).1]
      simp [logAi, Store.log_ai_request, Store.log_ai_response,
        cleanedTaskLines]
    · rw [(extract_loop_spec _ _ _ _ _).2.1]
      simp [logAi, Store.log_ai_request, Store.log_ai_response,
        cleanedTaskLines]

/-- Witness for C7: on the concrete store `stW`, both hypotheses hold and
the extraction conclusions evaluate. -/
theorem claim_C7_witness :
    stW.get_message 1 (some ctxW.user_id) = some msgRowW
    ∧ stW.get_meeting_transcript 7 = some ⟨7, "- Do the thing".data⟩
    ∧ (TaskService.extract_tasks_from_message ctxW stW 1).2.1.tasks
        = stW.tasks ++ mkTaskRows stW.nextTaskId (some ctxW.user_id)
            "message".data 1
            (cleanedTaskLines
              (ctxW.ai (extractTasksMessagePrompt msgRowW)
                "extract_tasks".data).1)
    ∧ (TaskService.extract_tasks_from_meeting ctxW stW 7).1
        = some ((List.range (cleanedTaskLines
            (ctxW.ai (extractTasksMeetingPrompt ⟨7, "- Do the thing".data⟩)
              "extract_tasks".data).1).length).map
            (fun i => stW.nextTaskId + i)) :=
  ⟨by decide, by decide,
    ((claim_C7_task_extraction_parsing ctxW stW 1 7).1 msgRowW (by decide)).1,
    ((claim_C7_task_extraction_parsing ctxW stW 1 7).2.1
      ⟨7, "- Do the thing".data⟩ (by decide)).2⟩

/-! ## Theorems for claims C8 and C9 -/

/-- C8: for a message that resolves for the requesting user, if the user
has zero categories then `suggest_categories_ai` returns the empty list
with the store unchanged (no `AiRequest`/`AiResponse` persisted) and an
empty event trace (the provider's `generate_text` is never invoked). -/
theorem claim_C8_empty_categories_short_circuit (ctx : ServiceCtx)
    (st : Store) (message_id : Nat) (message : MessageRow)
    (hmsg : st.get_message message_id (some ctx.user_id) = some message)
    (hcat : st.list_categories (some ctx.user_id) = []) :
    CategoryService.suggest_categories_ai ctx st message_id
      = (some [], st, []) := by
  simp [CategoryService.suggest_categories_ai, hmsg, hcat]

/-- Witness for C8: user 1 of `stC8` owns message 1 and no categories. -/
theorem claim_C8_witness :
    CategoryService.suggest_categories_ai ctxW stC8 1 = (some [], stC8, []) :=
  claim_C8_empty_categories_short_circuit ctxW stC8 1 msgRowW (by decide)
    (by decide)

/-- C9: `suggest_categories_ai` and `extract_tasks_from_message` fail (the
modelled `NotFound`) exactly when the message id does not resolve for the
requesting user, and in that case they return with the store unchanged and
an empty event trace — no AI invocation, no `AiRequest`, `AiResponse`,
task or note persisted. -/
theorem claim_C9_not_found (ctx : ServiceCtx) (st : Store)
    (message_id : Nat) :
    ((CategoryService.suggest_categories_ai ctx st message_id).1 = none
      ↔ st.get_message message_id (some ctx.user_id) = none)
    ∧ (st.get_message message_id (some ctx.user_id) = none →
        CategoryService.suggest_categories_ai ctx st message_id
          = (none, st, []))
    ∧ ((TaskService.extract_tasks_from_message ctx st message_id).1 = none
      ↔ st.get_message message_id (some ctx.user_id) = none)
    ∧ (st.get_message message_id (some ctx.user_id) = none →
        TaskService.extract_tasks_from_message ctx st message_id
          = (none, st, [])) := by
  cases hg : st.get_message message_id (some ctx.user_id) with
  | none =>
    simp [CategoryService.suggest_categories_ai,
      TaskService.extract_tasks_from_message, hg]
  | some message =>
    refine ⟨?_, by simp, ?_, by simp⟩
    · simp only [CategoryService.suggest_categories_ai, hg]
      constructor
      · intro h
        exfalso
        by_cases hc : ((st.list_categories (some ctx.user_id)).map
            categoryOf).isEmpty
        · simp [hc] at h
        · simp only [hc, Bool.false_eq_true, if_false] at h
          by_cases hs : (parse_suggestions
              ((st.list_categories (some ctx.user_id)).map categoryOf)
              (ctx.ai (suggestionPrompt
                ((st.list_categories (some ctx.user_id)).map categoryOf)
                message.subject message.body)
                "category_suggestion".data).1).isEmpty <;>
            simp [hs] at h
      · intro h; exact absurd h (by simp)
    · simp only [TaskService.extract_tasks_from_message, hg]
      constructor
      · intro h; simp at h
      · intro h; exact absurd h (by simp)

/-- Witness for C9: on the empty store no message resolves, so both
operations return `none` with the state unchanged. -/
theorem claim_C9_witness :
    (((CategoryService.suggest_categories_ai ctxW ({} : Store) 1).1 = none
      ↔ ({} : Store).get_message 1 (some ctxW.user_id) = none)
    ∧ (({} : Store).get_message 1 (some ctxW.user_id) = none →
        CategoryService.suggest_categories_ai ctxW ({} : Store) 1
          = (none, ({} : Store), []))
    ∧ (((TaskService.extract_tasks_from_message ctxW ({} : Store) 1).1
          = none)
      ↔ ({} : Store).get_message 1 (some ctxW.user_id) = none)
    ∧ (({} : Store).get_message 1 (some ctxW.user_id) = none →
        TaskService.extract_tasks_from_message ctxW ({} : Store) 1
          = (none, ({} : Store), [])))
    ∧ ({} : Store).get_message 1 (some ctxW.user_id) = none :=
  ⟨claim_C9_not_found ctxW ({} : Store) 1, by decide⟩

/-! ## Theorems for claim C3 -/

/-- A trace headed by one provider call, one request log and one response
log (referencing that request), whose tail contains no audit write,
satisfies `auditTrace`. -/
theorem auditTrace_cons (p pur : Str) (rid respid : Nat) (rest : List Event)
    (hrest : ∀ e ∈ rest, (∀ n, e ≠ Event.logRequest n)
      ∧ ∀ n m, e ≠ Event.logResponse n m) :
    auditTrace (Event.aiCall p pur :: Event.logRequest rid ::
      Event.logResponse respid rid :: rest) :=
  ⟨p, pur, rid, respid, rest, rfl, hrest⟩

/-- C3: every successful AI invocation by a core operation — chat answer,
reply draft, category suggestion, message summary, follow-up, task
extraction from message or meeting, meeting summary — persists exactly one
`AiRequest` and one `AiResponse`, with the response's `request_id` equal to
the id returned for that request, and logs the request before the response
(for category suggestion, both precede the decision event that either
returns the AI results or falls back to rules). -/
theorem claim_C3_audit_pairing (ctx : ServiceCtx) (st : Store) :
    (∀ query limit,
      auditPaired st (ChatService.answer ctx st query limit).2.1
      ∧ auditTrace (ChatService.answer ctx st query limit).2.2)
    ∧ (∀ message_id instructions,
        (ChatService.draft_reply ctx st message_id instructions).1.isSome
          = true →
        auditPaired st
          (ChatService.draft_reply ctx st message_id instructions).2.1
        ∧ auditTrace
          (ChatService.draft_reply ctx st message_id instructions).2.2)
    ∧ (∀ message_id,
        (CategoryService.suggest_categories_ai ctx st message_id).2.2
          ≠ [] →
        auditPaired st
          (CategoryService.suggest_categories_ai ctx st message_id).2.1
        ∧ ∃ prompt rid respid d,
            (CategoryService.suggest_categories_ai ctx st message_id).2.2
              = [Event.aiCall prompt "category_suggestion".data,
                 Event.logRequest rid, Event.logResponse respid rid, d]
            ∧ (d = Event.returnAi ∨ d = Event.fallback))
    ∧ (∀ message_id,
        (MessageInsightsService.summarize_message ctx st
          message_id).1.isSome = true →
        auditPaired st
          (MessageInsightsService.summarize_message ctx st message_id).2.1
        ∧ auditTrace
          (MessageInsightsService.summarize_message ctx st message_id).2.2)
    ∧ (∀ message_id,
        (MessageInsightsService.suggest_follow_up ctx st
          message_id).1.isSome = true →
        auditPaired st
          (MessageInsightsService.suggest_follow_up ctx st message_id).2.1
        ∧ auditTrace
          (MessageInsightsService.suggest_follow_up ctx st message_id).2.2)
    ∧ (∀ message_id,
        (TaskService.extract_tasks_from_message ctx st
          message_id).1.isSome = true →
        auditPaired st
          (TaskService.extract_tasks_from_message ctx st message_id).2.1
        ∧ auditTrace
          (TaskService.extract_tasks_from_message ctx st message_id).2.2)
    ∧ (∀ meeting_id,
        (TaskService.extract_tasks_from_meeting ctx st
          meeting_id).1.isSome = true →
        auditPaired st
          (TaskService.extract_tasks_from_meeting ctx st meeting_id).2.1
        ∧ auditTrace
          (TaskService.extract_tasks_from_meeting ctx st meeting_id).2.2)
    ∧ (∀ meeting_id,
        (MeetingSummaryService.summarize_meeting ctx st
          meeting_id).1.isSome = true →
        auditPaired st
          (MeetingSummaryService.summarize_meeting ctx st meeting_id).2.1
        ∧ auditTrace
          (MeetingSummaryService.summarize_meeting ctx st meeting_id).2.2) := by
  refine ⟨?_, ?_, ?_, ?_, ?_, ?_, ?_, ?_⟩
  · -- ChatService.answer: always one paired audit write
    intro query limit
    constructor
    · unfold auditPaired
      simp only [ChatService.answer, logAi, Store.log_ai_request,
        Store.log_ai_response]
      exact ⟨_, _, rfl, rfl, rfl⟩
    · exact ⟨_, _, _, _, [], rfl, by simp⟩
  · -- ChatService.draft_reply
    intro message_id instructions h
    cases hg : st.get_message message_id (some ctx.user_id) with
    | none => simp [ChatService.draft_reply, hg] at h
    | some message =>
      constructor
      · unfold auditPaired
        simp only [ChatService.draft_reply, hg, logAi,
          Store.log_ai_request, Store.log_ai_response]
        exact ⟨_, _, rfl, rfl, rfl⟩
      · simp only [ChatService.draft_reply, hg]
        exact ⟨_, _, _, _, [], rfl, by simp⟩
  · -- CategoryService.suggest_categories_ai
    intro message_id htr
    cases hg : st.get_message message_id (some ctx.user_id) with
    | none => simp [CategoryService.suggest_categories_ai, hg] at htr
    | some message =>
      by_cases hc : ((st.list_categories (some ctx.user_id)).map
          categoryOf).isEmpty
      · simp [CategoryService.suggest_categories_ai, hg, hc] at htr
      · constructor
        · unfold auditPaired
          simp only [CategoryService.suggest_categories_ai, hg, hc,
            Bool.false_eq_true, if_false, logAi, Store.log_ai_request,
            Store.log_ai_response]
          by_cases hs : (parse_suggestions
              ((st.list_categories (some ctx.user_id)).map categoryOf)
              (ctx.ai (suggestionPrompt
                ((st.list_categories (some ctx.user_id)).map categoryOf)
                message.subject message.body)
                "category_suggestion".data).1).isEmpty <;>
            simp only [hs, Bool.false_eq_true, if_false, if_true] <;>
            exact ⟨_, _, rfl, rfl, rfl⟩
        · simp only [CategoryService.suggest_categories_ai, hg, hc,
            Bool.false_eq_true, if_false]
          by_cases hs : (parse_suggestions
              ((st.list_categories (some ctx.user_id)).map categoryOf)
              (ctx.ai (suggestionPrompt
                ((st.list_categories (some ctx.user_id)).map categoryOf)
                message.subject message.body)
                "category_suggestion".data).1).isEmpty <;>
            simp only [hs, Bool.false_eq_true, if_false, if_true]
          · exact ⟨_, _, _, Event.fallback, rfl, Or.inr rfl⟩
          · exact ⟨_, _, _, Event.returnAi, rfl, Or.inl rfl⟩
  · -- MessageInsightsService.summarize_message
    intro message_id h
    cases hg : st.get_message message_id (some ctx.user_id) with
    | none => simp [MessageInsightsService.summarize_message, hg] at h
    | some message =>
      constructor
      · unfold auditPaired
        simp only [MessageInsightsService.summarize_message, hg, logAi,
          Store.log_ai_request, Store.log_ai_response, Store.add_note]
        exact ⟨_, _, rfl, rfl, rfl⟩
      · simp only [MessageInsightsService.summarize_message, hg]
        exact ⟨_, _, _, _, [Event.addNote _], rfl, by simp⟩
  · -- MessageInsightsService.suggest_follow_up
    intro message_id h
    cases hg : st.get_message message_id (some ctx.user_id) with
    | none => simp [MessageInsightsService.suggest_follow_up, hg] at h
    | some message =>
      constructor
      · unfold auditPaired
        simp only [MessageInsightsService.suggest_follow_up, hg, logAi,
          Store.log_ai_request, Store.log_ai_response]
        exact ⟨_, _, rfl, rfl, rfl⟩
      · simp only [MessageInsightsService.suggest_follow_up, hg]
        exact ⟨_, _, _, _, [], rfl, by simp⟩
  · -- TaskService.extract_tasks_from_message
    intro message_id h
    cases hg : st.get_message message_id (some ctx.user_id) with
    | none => simp [TaskService.extract_tasks_from_message, hg] at h
    | some message =>
      constructor
      · unfold auditPaired
        simp only [TaskService.extract_tasks_from_message, hg]
        rw [(extract_loop_spec _ _ _ _ _).2.2.1,
          (extract_loop_spec _ _ _ _ _).2.2.2.1]
        simp only [logAi, Store.log_ai_request, Store.log_ai_response]
        exact ⟨_, _, rfl, rfl, rfl⟩
      · simp only [TaskService.extract_tasks_from_message, hg]
        refine auditTrace_cons _ _ _ _ _ ?_
        intro e he
        obtain ⟨n, rfl⟩ :=
          (extract_loop_spec _ _ _ _ _).2.2.2.2 e he
        exact ⟨fun n' => by simp, fun n' m' => by simp⟩
  · -- TaskService.extract_tasks_from_meeting
    intro meeting_id h
    cases hg : st.get_meeting_transcript meeting_id with
    | none => simp [TaskService.extract_tasks_from_meeting, hg] at h
    | some transcript =>
      constructor
      · unfold auditPaired
        simp only [TaskService.extract_tasks_from_meeting, hg]
        rw [(extract_loop_spec _ _ _ _ _).2.2.1,
          (extract_loop_spec _ _ _ _ _).2.2.2.1]
        simp only [logAi, Store.log_ai_request, Store.log_ai_response]
        exact ⟨_, _, rfl, rfl, rfl⟩
      · simp only [TaskService.extract_tasks_from_meeting, hg]
        refine auditTrace_cons _ _ _ _ _ ?_
        intro e he
        obtain ⟨n, rfl⟩ :=
          (extract_loop_spec _ _ _ _ _).2.2.2.2 e he
        exact ⟨fun n' => by simp, fun n' m' => by simp⟩
  · -- MeetingSummaryService.summarize_meeting
    intro meeting_id h
    cases hg : st.get_meeting_transcript meeting_id with
    | none => simp [MeetingSummaryService.summarize_meeting, hg] at h
    | some transcript =>
      constructor
      · unfold auditPaired
        simp only [MeetingSummaryService.summarize_meeting, hg, logAi,
          Store.log_ai_request, Store.log_ai_response, Store.add_note]
        exact ⟨_, _, rfl, rfl, rfl⟩
      · simp only [MeetingSummaryService.summarize_meeting, hg]
        exact ⟨_, _, _, _, [Event.addNote _], rfl, by simp⟩

/-- Witness for C3: every hypothesis is satisfiable — on the concrete store
`stW` each of the eight operations succeeds (and the category suggestion
performs an AI invocation), so each conclusion holds there. -/
theorem claim_C3_witness :
    (auditPaired stW (ChatService.answer ctxW stW "hello".data 3).2.1
      ∧ auditTrace (ChatService.answer ctxW stW "hello".data 3).2.2)
    ∧ (auditPaired stW (ChatService.draft_reply ctxW stW 1 "ok".data).2.1
      ∧ auditTrace (ChatService.draft_reply ctxW stW 1 "ok".data).2.2)
    ∧ (auditPaired stW
        (CategoryService.suggest_categories_ai ctxW stW 1).2.1
      ∧ ∃ prompt rid respid d,
          (CategoryService.suggest_categories_ai ctxW stW 1).2.2
            = [Event.aiCall prompt "category_suggestion".data,
               Event.logRequest rid, Event.logResponse respid rid, d]
          ∧ (d = Event.returnAi ∨ d = Event.fallback))
    ∧ (auditPaired stW
        (MessageInsightsService.summarize_message ctxW stW 1).2.1
      ∧ auditTrace
        (MessageInsightsService.summarize_message ctxW stW 1).2.2)
    ∧ (auditPaired stW
        (MessageInsightsService.suggest_follow_up ctxW stW 1).2.1
      ∧ auditTrace
        (MessageInsightsService.suggest_follow_up ctxW stW 1).2.2)
    ∧ (auditPaired stW
        (TaskService.extract_tasks_from_message ctxW stW 1).2.1
      ∧ auditTrace
        (TaskService.extract_tasks_from_message ctxW stW 1).2.2)
    ∧ (auditPaired stW
        (TaskService.extract_tasks_from_meeting ctxW stW 7).2.1
      ∧ auditTrace
        (TaskService.extract_tasks_from_meeting ctxW stW 7).2.2)
    ∧ (auditPaired stW
        (MeetingSummaryService.summarize_meeting ctxW stW 7).2.1
      ∧ auditTrace
        (MeetingSummaryService.summarize_meeting ctxW stW 7).2.2) := by
  obtain ⟨h1, h2, h3, h4, h5, h6, h7, h8⟩ := claim_C3_audit_pairing ctxW stW
  exact ⟨h1 "hello".data 3, h2 1 "ok".data (by decide), h3 1 (by decide),
    h4 1 (by decide), h5 1 (by decide), h6 1 (by decide), h7 7 (by decide),
    h8 7 (by decide)⟩

/-! ## Theorems for claim C1 -/

/-- Counterexample to C1 as stated: with the deterministic mock provider,
user 1's category "Work" and the stored message "hello" / "nothing
relevant" (which matches no keyword), `suggest_categories_ai` returns
`[Work]` — the mock echoes the prompt, whose first 240 characters contain
the `- Work` category line, so validation succeeds — while
`RuleBasedClassifier.suggest` returns `[]` on the same message and category
set. -/
theorem claim_C1_counterexample :
    (CategoryService.suggest_categories_ai ctxW stW 1).1
      = some [⟨"Work".data, none⟩]
    ∧ RuleBasedClassifier.suggest (Message.ofRow msgRowW)
        ((stW.list_categories (some ctxW.user_id)).map categoryOf) = []
    ∧ (CategoryService.suggest_categories_ai ctxW stW 1).1
      ≠ some (RuleBasedClassifier.suggest (Message.ofRow msgRowW)
          ((stW.list_categories (some ctxW.user_id)).map categoryOf)) :=
  ⟨by decide, by decide, by decide⟩

/-- C1 as amended: with the mock provider, `suggest_categories_ai` returns
exactly the rule-based classifier's result whenever no line of the mock's
echoed response validates (after strip / dash-strip / lower-case) to one of
the user's category names; since the prompt embeds every category as a
`- name` line inside the echoed 240-character prefix, that validation
usually succeeds and the method instead returns the echoed categories. -/
theorem claim_C1_amended_mock_fallback (pn mn : Str) (uid : Nat) (now : Str)
    (lat : Nat) (st : Store) (message_id : Nat) (message : MessageRow)
    (hmsg : st.get_message message_id (some uid) = some message)
    (hval : parse_suggestions
      ((st.list_categories (some uid)).map categoryOf)
      (MockAiProvider.text
        (suggestionPrompt ((st.list_categories (some uid)).map categoryOf)
          message.subject message.body)
        "category_suggestion".data) = []) :
    (CategoryService.suggest_categories_ai
      ⟨MockAiProvider.provider lat, pn, mn, uid, now⟩ st message_id).1
      = some (RuleBasedClassifier.suggest (Message.ofRow message)
          ((st.list_categories (some uid)).map categoryOf)) := by
  by_cases hc : ((st.list_categories (some uid)).map categoryOf).isEmpty
  · have hnil : (st.list_categories (some uid)).map categoryOf = [] :=
      List.isEmpty_iff.mp hc
    simp [CategoryService.suggest_categories_ai, hmsg, hc, hnil,
      RuleBasedClassifier.suggest]
  · simp only [CategoryService.suggest_categories_ai, hmsg, hc,
      Bool.false_eq_true, if_false, MockAiProvider.provider]
    simp [hval]

/-- Witness for the amended C1: a category whose name contains a newline
can never be validated from a response line, so on `stX` the mock path
falls back and returns exactly the rule-based suggestions. -/
theorem claim_C1_amended_witness :
    stX.get_message 1 (some 1) = some msgRowX
    ∧ parse_suggestions ((stX.list_categories (some 1)).map categoryOf)
        (MockAiProvider.text
          (suggestionPrompt ((stX.list_categories (some 1)).map categoryOf)
            msgRowX.subject msgRowX.body)
          "category_suggestion".data) = []
    ∧ (CategoryService.suggest_categories_ai
        ⟨MockAiProvider.provider 0, "mock".data, "mock".data, 1, "t".data⟩
        stX 1).1
      = some (RuleBasedClassifier.suggest (Message.ofRow msgRowX)
          ((stX.list_categories (some 1)).map categoryOf)) :=
  ⟨by decide, by decide,
    claim_C1_amended_mock_fallback "mock".data "mock".data 1 "t".data 0
      stX 1 msgRowX (by decide) (by decide)⟩

end InboxPilot

